import Mathlib

set_option maxRecDepth 100000

/-!
Shallow embedding of the lossypng pixel quantization engine
(`optimizeForAverageFilter`, `optimizeForPaethFilter`, `paethPredictor`,
`colorDifference`, `colorDelta`, `diffuseColorDeltas` from the Go source).

Conventions of the embedding:
* Go `uint8` pixel bytes are `ℕ` values (< 256 in every reachable state);
  buffers are `List ℕ` read with `List.getD _ _ 0`.
* Go `int`/`int32` values are `ℤ`; every place the Go source performs an
  explicit `int32(...)` conversion, or an arithmetic operation at type
  `int32` or `uint32` that can wrap, the embedding reduces with `wrap32`
  (two's-complement) or `% 2^32` (unsigned).
* Go `/` on integers truncates toward zero and Go `%` takes the sign of the
  dividend, so the embedding uses `Int.tdiv` / `Int.tmod`; `uint`
  divisions are `ℕ` division.
* A Go `color.Color` enters the engine only through its `RGBA()` method,
  returning four 16-bit (alpha-premultiplied) components, so a palette
  color is embedded as the quadruple of those components (`GoColor`).
* The Go ring-rotation loop
  `for i ...: colorError[(i+1)%3] = colorError[i]`
  copies slice headers, so after the first row all three slots alias one
  backing array (slot 1 gets slot 0, slot 2 gets the new slot 1 = slot 0,
  slot 0 gets the new slot 2 = slot 0).  The embedding keeps the single
  live array `e` and passes it for all three rows once `0 < y`, while for
  row `y = 0` rows 1 and 2 are the untouched all-zero arrays.
-/

/-- Two's-complement reduction of a Go `int32` arithmetic result. -/
def wrap32 (z : ℤ) : ℤ := (z + 2 ^ 31) % 2 ^ 32 - 2 ^ 31

/-- Go conversion `int32(u)` of an unsigned value: reinterpret the low
32 bits as two's complement. -/
def toInt32 (n : ℕ) : ℤ := wrap32 ((n : ℤ) % 2 ^ 32)

/-- The Go type `colorDelta [4]int32`: difference between two colors in
rgba (`deltaComponents = 4`). -/
structure ColorDelta where
  c0 : ℤ
  c1 : ℤ
  c2 : ℤ
  c3 : ℤ
deriving DecidableEq, Repr

/-- The zero value of `colorDelta` (Go zero-initialization). -/
def ColorDelta.zero : ColorDelta := ⟨0, 0, 0, 0⟩

/-- Component read `d[i]`. -/
def ColorDelta.get (d : ColorDelta) (i : ℕ) : ℤ :=
  match i with
  | 0 => d.c0
  | 1 => d.c1
  | 2 => d.c2
  | _ => d.c3

/-- Component write `d[i] = v`. -/
def ColorDelta.setC (d : ColorDelta) (i : ℕ) (v : ℤ) : ColorDelta :=
  match i with
  | 0 => ⟨v, d.c1, d.c2, d.c3⟩
  | 1 => ⟨d.c0, v, d.c2, d.c3⟩
  | 2 => ⟨d.c0, d.c1, v, d.c3⟩
  | _ => ⟨d.c0, d.c1, d.c2, v⟩

/-- Go `func (a colorDelta) add(b colorDelta) colorDelta`:
componentwise `int32` addition (wrapping). -/
def ColorDelta.add (a b : ColorDelta) : ColorDelta :=
  ⟨wrap32 (a.c0 + b.c0), wrap32 (a.c1 + b.c1),
   wrap32 (a.c2 + b.c2), wrap32 (a.c3 + b.c3)⟩

/-- Go `func (a colorDelta) magnitude() uint64`: sum over the four
components of `uint64(int64(a[i]) * int64(a[i]))`, accumulated in a
`uint64` (reduced mod `2^64`; each square of an `int32` is exact in
`int64` and non-negative). -/
def ColorDelta.magnitude (a : ColorDelta) : ℕ :=
  (a.c0 * a.c0 + a.c1 * a.c1 + a.c2 * a.c2 + a.c3 * a.c3).toNat % 2 ^ 64

/-- A palette color as seen by the engine: the four 16-bit
alpha-premultiplied components returned by Go `color.Color.RGBA()`. -/
structure GoColor where
  r : ℕ
  g : ℕ
  b : ℕ
  a : ℕ
deriving DecidableEq, Repr

/-- Go `colorDifference(a, b color.Color) colorDelta`.  `full = 65535`;
the three color components are un-premultiplied (`pa := ca[i]*full`,
divided by alpha when positive, all in `uint32`), converted by `int32()`
and subtracted; the red/blue components are weighted by a red-mean term
and green by 4/3, all in wrapping `int32` arithmetic with truncating
division.  Note the asymmetry of the source: in the delta loop `pa` is
always multiplied by `full` (and divided only when alpha is positive),
while the red-mean inputs `redA`/`redB` are left at the raw component
when alpha is zero (`redA := ca[0]` is scaled only inside the
`ca[3] > 0` branch). -/
def colorDifference (a b : GoColor) : ColorDelta :=
  let ca : ℕ → ℕ := fun i => match i with
    | 0 => a.r
    | 1 => a.g
    | 2 => a.b
    | _ => a.a
  let cb : ℕ → ℕ := fun i => match i with
    | 0 => b.r
    | 1 => b.g
    | 2 => b.b
    | _ => b.a
  let full : ℕ := 65535
  let premul : ℕ → ℕ → ℕ := fun comp alpha =>
    let p := comp * full % 2 ^ 32
    if 0 < alpha then p / alpha else p
  let delta : ℕ → ℤ := fun i =>
    wrap32 (toInt32 (premul (ca i) (ca 3)) - toInt32 (premul (cb i) (cb 3)))
  let delta3 : ℤ := wrap32 (toInt32 (ca 3) - toInt32 (cb 3))
  let redScale : ℕ → ℕ → ℕ := fun comp alpha =>
    if 0 < alpha then comp * full % 2 ^ 32 / alpha else comp
  let redA := redScale (ca 0) (ca 3)
  let redB := redScale (cb 0) (cb 3)
  let redMean : ℤ := toInt32 ((redA + redB) % 2 ^ 32 / 2)
  ⟨(wrap32 (wrap32 (2 * 65535 + redMean) * delta 0)).tdiv (3 * 65535),
   (wrap32 (4 * delta 1)).tdiv 3,
   (wrap32 (wrap32 (3 * 65535 - redMean) * delta 2)).tdiv (3 * 65535),
   delta3⟩

/-- Go `diffuseColorDeltas(colorError [3][]colorDelta, x int) colorDelta`:
one component of the Sierra-style 10-tap accumulation.  Each Go `+=` is an
`int32` addition of an `int32` product, so each step wraps. -/
def diffuseComponent (e2 e1 e0 : List ColorDelta) (x i : ℕ) : ℤ :=
  let cell : List ColorDelta → ℕ → ℤ := fun e j => (e.getD j ColorDelta.zero).get i
  let s1 := wrap32 (0 + wrap32 (2 * cell e2 (x - 1)))
  let s2 := wrap32 (s1 + wrap32 (3 * cell e2 x))
  let s3 := wrap32 (s2 + wrap32 (2 * cell e2 (x + 1)))
  let s4 := wrap32 (s3 + wrap32 (2 * cell e1 (x - 2)))
  let s5 := wrap32 (s4 + wrap32 (4 * cell e1 (x - 1)))
  let s6 := wrap32 (s5 + wrap32 (5 * cell e1 x))
  let s7 := wrap32 (s6 + wrap32 (4 * cell e1 (x + 1)))
  let s8 := wrap32 (s7 + wrap32 (2 * cell e1 (x + 2)))
  let s9 := wrap32 (s8 + wrap32 (3 * cell e0 (x - 2)))
  let s10 := wrap32 (s9 + wrap32 (5 * cell e0 (x - 1)))
  let rounded := wrap32 (if s10 < 0 then s10 - 16 else s10 + 16)
  rounded.tdiv 32

/-- Go `diffuseColorDeltas` assembled over the four components.  `e2`,
`e1`, `e0` are `colorError[2]`, `colorError[1]`, `colorError[0]`. -/
def diffuseColorDeltas (e2 e1 e0 : List ColorDelta) (x : ℕ) : ColorDelta :=
  ⟨diffuseComponent e2 e1 e0 x 0, diffuseComponent e2 e1 e0 x 1,
   diffuseComponent e2 e1 e0 x 2, diffuseComponent e2 e1 e0 x 3⟩

/-- Go `paethPredictor(a, b, c uint8) uint8` with `a` = left, `b` = above,
`c` = upper left: `p := int(a)+int(b)-int(c)`, distances `pa`, `pb`, `pc`,
nearest of `a`, `b`, `c`, ties in order `a`, `b`, `c`. -/
def paethPredictor (a b c : ℕ) : ℕ :=
  let p : ℤ := (a : ℤ) + (b : ℤ) - (c : ℤ)
  let pa := (p - (a : ℤ)).natAbs
  let pb := (p - (b : ℤ)).natAbs
  let pc := (p - (c : ℤ)).natAbs
  if pa ≤ pb ∧ pa ≤ pc then a
  else if pb ≤ pc then b
  else c

/-- The all-zero diffusion row of length `width + filterWidth - 1`
(`filterWidth = 5`), as allocated by `make([]colorDelta, width+4)`. -/
def zeroRow (width : ℕ) : List ColorDelta :=
  List.replicate (width + 4) ColorDelta.zero

/-- The quantization arithmetic of `optimizeForAverageFilter` for one
channel byte (the value Go calls `newValue` just before the range test):
`halfStep := int32(quantization / 2)`, then
`newValue := diffusion[c] + here - average`, `+= halfStep`,
`-= newValue % int32(quantization)`, `+= average`.  `newValue` is an
`int32`, so every step of the chain wraps (consecutive additive wraps
are collapsed, which is sound mod `2^32`); the `%` divisor is the
wrapped `int32(quantization)`. -/
def avgCandidate (q here average diffusionC : ℤ) : ℤ :=
  let halfStep := wrap32 (q.tdiv 2)
  let n0 := wrap32 (diffusionC + here - average)
  let n1 := wrap32 (n0 + halfStep)
  let n2 := wrap32 (n1 - n1.tmod (wrap32 q))
  wrap32 (n2 + average)

/-- One iteration of the `for c := 0; c < bytesPerPixel; c++` body of
`optimizeForAverageFilter`: returns the updated pixel buffer and
`errorHere`. -/
def avgChannelStep (q : ℤ) (stride bpp y x c : ℕ) (diffusionC : ℤ)
    (pixels : List ℕ) : List ℕ × ℤ :=
  let offset := y * stride + x * bpp + c
  let here : ℤ := (pixels.getD offset 0 : ℕ)
  if 0 < here ∧ here < 255 then
    let up : ℤ := if 0 < y then (pixels.getD (offset - stride) 0 : ℕ) else 0
    let left : ℤ := if 0 < x then (pixels.getD (offset - bpp) 0 : ℕ) else 0
    let average := (up + left).tdiv 2
    let newValue := avgCandidate q here average diffusionC
    if 0 ≤ newValue ∧ newValue ≤ 255 then
      (pixels.set offset newValue.toNat, here - newValue)
    else (pixels, 0)
  else (pixels, 0)

/-- One iteration of the `for x ...` body of `optimizeForAverageFilter`:
computes the pixel diffusion once, then runs the channel loop, writing
each `errorHere` into component `c` of `colorError[0][x+filterCenter]`.
For `y = 0` the rows `colorError[2]` and `colorError[1]` are the original
all-zero arrays; for `0 < y` all three slots alias the single live
array (see the ring-rotation note in the header). -/
def avgPixelStep (q : ℤ) (stride bpp width y x : ℕ)
    (s : List ℕ × List ColorDelta) : List ℕ × List ColorDelta :=
  let ePrev := if y = 0 then zeroRow width else s.2
  let diffusion := diffuseColorDeltas ePrev ePrev s.2 (x + 2)
  (List.range bpp).foldl
    (fun t c =>
      let r := avgChannelStep q stride bpp y x c (diffusion.get c) t.1
      (r.1, t.2.set (x + 2) ((t.2.getD (x + 2) ColorDelta.zero).setC c r.2)))
    s

/-- One row (`for x := 0; x < width; x++`) of `optimizeForAverageFilter`. -/
def avgRowStep (q : ℤ) (stride bpp width y : ℕ)
    (s : List ℕ × List ColorDelta) : List ℕ × List ColorDelta :=
  (List.range width).foldl (fun t x => avgPixelStep q stride bpp width y x t) s

/-- Go `optimizeForAverageFilter(pixels, bounds, stride, bytesPerPixel,
quantization)`: `quantization == 0` returns the buffer unchanged,
otherwise all rows are processed in raster order. -/
def optimizeForAverageFilter (pixels : List ℕ)
    (width height stride bpp : ℕ) (q : ℤ) : List ℕ :=
  if q = 0 then pixels
  else
    ((List.range height).foldl
      (fun s y => avgRowStep q stride bpp width y s)
      (pixels, zeroRow width)).1

/-- One iteration of `for i, candidate := range palette` in the fallback
scan of `optimizeForPaethFilter`.  The accumulator carries Go's
`(bestColor, bestDelta, bestMagnitude)`; `bestColor` is written as
`uint8(i)` (reduction mod 256). -/
def paethScanStep (hereC : GoColor) (diffusion : ColorDelta)
    (palette : List GoColor) (acc : ℕ × ColorDelta × ℕ) (i : ℕ) :
    ℕ × ColorDelta × ℕ :=
  let delta := colorDifference hereC (palette.getD i ⟨0, 0, 0, 0⟩)
  let nextMagnitude := (delta.add diffusion).magnitude
  if acc.2.2 > nextMagnitude then (i % 256, delta, nextMagnitude) else acc

/-- The per-pixel decision of `optimizeForPaethFilter`: the early-exit
test `(total.magnitude() >> 16) < uint64(quantization*quantization)`
accepts the Paeth prediction; otherwise `bestColor` restarts at 0 and the
entire palette is scanned with strict improvement.  Returns the committed
index and the recorded `bestDelta`. -/
def paethChoosePixel (q : ℤ) (palette : List GoColor)
    (here paeth : ℕ) (diffusion : ColorDelta) : ℕ × ColorDelta :=
  let hereC := palette.getD here ⟨0, 0, 0, 0⟩
  let bestDelta := colorDifference hereC (palette.getD paeth ⟨0, 0, 0, 0⟩)
  let total := bestDelta.add diffusion
  if total.magnitude / 2 ^ 16 < ((q * q) % 2 ^ 64).toNat then
    (paeth, bestDelta)
  else
    let bestDelta0 := colorDifference hereC (palette.getD 0 ⟨0, 0, 0, 0⟩)
    let r := (List.range palette.length).foldl
      (paethScanStep hereC diffusion palette)
      (0, bestDelta0, (bestDelta0.add diffusion).magnitude)
    (r.1, r.2.1)

/-- One iteration of the `for x ...` body of `optimizeForPaethFilter`:
neighbor index bytes (0 outside), Paeth prediction, per-pixel decision,
write-back of the index and of `bestDelta` into
`colorError[0][x+filterCenter]`. -/
def paethPixelStep (q : ℤ) (stride width : ℕ) (palette : List GoColor)
    (y x : ℕ) (s : List ℕ × List ColorDelta) : List ℕ × List ColorDelta :=
  let ePrev := if y = 0 then zeroRow width else s.2
  let diffusion := diffuseColorDeltas ePrev ePrev s.2 (x + 2)
  let offset := y * stride + x
  let here := s.1.getD offset 0
  let up := if 0 < y then s.1.getD (offset - stride) 0 else 0
  let left := if 0 < x then s.1.getD (offset - 1) 0 else 0
  let diagonal := if 0 < y ∧ 0 < x then s.1.getD (offset - stride - 1) 0 else 0
  let paeth := paethPredictor left up diagonal
  let r := paethChoosePixel q palette here paeth diffusion
  (s.1.set offset r.1, s.2.set (x + 2) r.2)

/-- One row of `optimizeForPaethFilter`. -/
def paethRowStep (q : ℤ) (stride width : ℕ) (palette : List GoColor)
    (y : ℕ) (s : List ℕ × List ColorDelta) : List ℕ × List ColorDelta :=
  (List.range width).foldl (fun t x => paethPixelStep q stride width palette y x t) s

/-- Go `optimizeForPaethFilter(pixels, bounds, stride, quantization,
palette)`: an empty palette (`colorCount <= 0`) returns immediately,
otherwise all rows are processed in raster order. -/
def optimizeForPaethFilter (pixels : List ℕ)
    (width height stride : ℕ) (q : ℤ) (palette : List GoColor) : List ℕ :=
  if palette.length = 0 then pixels
  else
    ((List.range height).foldl
      (fun s y => paethRowStep q stride width palette y s)
      (pixels, zeroRow width)).1

/-- Modelled from the spec (§4.1/§4.2 wording of claim C7, for the
refinement comparison): choose whichever of `a` (left), `b` (above),
`c` (above-left) minimizes the distance to `p = a + b - c`, breaking
ties in the fixed order `a`, then `b`, then `c`. -/
def paethNearestSpec (a b c : ℕ) : ℕ :=
  let p : ℤ := (a : ℤ) + (b : ℤ) - (c : ℤ)
  let pa := (p - (a : ℤ)).natAbs
  let pb := (p - (b : ℤ)).natAbs
  let pc := (p - (c : ℤ)).natAbs
  if pa ≤ pb ∧ pa ≤ pc then a
  else if pb ≤ pa ∧ pb ≤ pc then b
  else c

/-- Modelled from the spec: the 4-tap diffusion kernel claimed for the
Paeth optimizer (claim C3): weights 7, 1, 5, 3 over the left, above-left,
above and above-right stored deltas at the window column `x`, rounded
half-away-from-zero and divided by 16.  `cur` is the current row of
stored deltas, `prev` the row above. -/
def fourTapDiffusionSpec (prev cur : List ColorDelta) (x : ℕ) : ColorDelta :=
  let comp : ℕ → ℤ := fun i =>
    let cell : List ColorDelta → ℕ → ℤ := fun e j => (e.getD j ColorDelta.zero).get i
    let s := 7 * cell cur (x - 1) + 1 * cell prev (x - 1) +
             5 * cell prev x + 3 * cell prev (x + 1)
    (if s < 0 then s - 8 else s + 8).tdiv 16
  ⟨comp 0, comp 1, comp 2, comp 3⟩

/-- The plain (no-wrap) reading of the code's 10-tap diffusion kernel:
weights 2, 3, 2 over `colorError[2]` at columns `x-1`, `x`, `x+1`;
weights 2, 4, 5, 4, 2 over `colorError[1]` at columns `x-2` … `x+2`;
weights 3, 5 over `colorError[0]` at columns `x-2`, `x-1`; total 32;
rounded half-away-from-zero and divided (truncating) by 32.  It agrees
with `diffuseColorDeltas` whenever the stored deltas are small enough
that no `int32` step wraps. -/
def tenTapDiffusionSpec (e2 e1 e0 : List ColorDelta) (x : ℕ) : ColorDelta :=
  let comp : ℕ → ℤ := fun i =>
    let cell : List ColorDelta → ℕ → ℤ := fun e j => (e.getD j ColorDelta.zero).get i
    let s := 2 * cell e2 (x - 1) + 3 * cell e2 x + 2 * cell e2 (x + 1) +
             2 * cell e1 (x - 2) + 4 * cell e1 (x - 1) + 5 * cell e1 x +
             4 * cell e1 (x + 1) + 2 * cell e1 (x + 2) +
             3 * cell e0 (x - 2) + 5 * cell e0 (x - 1)
    (if s < 0 then s - 16 else s + 16).tdiv 32
  ⟨comp 0, comp 1, comp 2, comp 3⟩

/-- Every stored delta of a diffusion row has all four components in
`[-B, B]`. -/
def deltaBounded (B : ℤ) (e : List ColorDelta) : Prop :=
  ∀ d ∈ e, |d.c0| ≤ B ∧ |d.c1| ≤ B ∧ |d.c2| ≤ B ∧ |d.c3| ≤ B

instance (B : ℤ) (e : List ColorDelta) : Decidable (deltaBounded B e) := by
  unfold deltaBounded
  exact List.decidableBAll _ e

/-- The candidate value `newValue` that `optimizeForAverageFilter` tests
against `[0, 255]` for the channel byte at `(y, x, c)`, with the step's
own `up`/`left` reads (0 outside) and truncating average. -/
def avgStepCandidate (q : ℤ) (stride bpp y x c : ℕ) (dC : ℤ)
    (pixels : List ℕ) : ℤ :=
  let offset := y * stride + x * bpp + c
  let here : ℤ := (pixels.getD offset 0 : ℕ)
  let up : ℤ := if 0 < y then (pixels.getD (offset - stride) 0 : ℕ) else 0
  let left : ℤ := if 0 < x then (pixels.getD (offset - bpp) 0 : ℕ) else 0
  avgCandidate q here ((up + left).tdiv 2) dC

/-- The recorded delta of palette candidate `i` against the current
color: `colorDifference(palette[here], palette[i])`. -/
def paethScanDelta (hereC : GoColor) (diffusion : ColorDelta)
    (palette : List GoColor) (i : ℕ) : ColorDelta :=
  colorDifference hereC (palette.getD i ⟨0, 0, 0, 0⟩)

/-- The scan objective of `optimizeForPaethFilter` for palette candidate
`i`: the magnitude of the candidate delta plus the diffusion forecast. -/
def paethScanMag (hereC : GoColor) (diffusion : ColorDelta)
    (palette : List GoColor) (i : ℕ) : ℕ :=
  ((colorDifference hereC (palette.getD i ⟨0, 0, 0, 0⟩)).add diffusion).magnitude

/-! ## Helper lemmas -/

theorem wrap32_small (z : ℤ) (h1 : -2 ^ 31 ≤ z) (h2 : z < 2 ^ 31) :
    wrap32 z = z := by
  unfold wrap32
  omega

theorem ColorDelta.zero_get (i : ℕ) : ColorDelta.zero.get i = 0 := by
  unfold ColorDelta.zero ColorDelta.get
  rcases i with _ | _ | _ | i <;> rfl

theorem getD_replicate {α : Type} (n j : ℕ) (d : α) :
    (List.replicate n d).getD j d = d := by
  rw [List.getD_eq_getElem?_getD, List.getElem?_replicate]
  split <;> rfl

theorem diffuseComponent_zero (w w1 w2 x i : ℕ) :
    diffuseComponent (zeroRow w2) (zeroRow w1) (zeroRow w) x i = 0 := by
  unfold diffuseComponent zeroRow
  simp only [getD_replicate, ColorDelta.zero_get]
  decide

theorem diffuse_zeroRows (w w1 w2 x : ℕ) :
    diffuseColorDeltas (zeroRow w2) (zeroRow w1) (zeroRow w) x = ColorDelta.zero := by
  unfold diffuseColorDeltas ColorDelta.zero
  simp only [diffuseComponent_zero]

theorem foldl_preserve {α σ : Type} (P : σ → Prop) (f : σ → α → σ)
    (l : List α) (s : σ) (hf : ∀ t a, a ∈ l → P t → P (f t a)) (hs : P s) :
    P (l.foldl f s) := by
  induction l generalizing s with
  | nil => exact hs
  | cons a l ih =>
    exact ih (f s a) (fun t b hb ht => hf t b (List.mem_cons_of_mem a hb) ht)
      (hf s a (List.mem_cons_self a l) hs)

theorem getD_set_ne {α : Type} (l : List α) (m n : ℕ) (a d : α)
    (h : m ≠ n) : (l.set m a).getD n d = l.getD n d := by
  rw [List.getD_eq_getElem?_getD, List.getD_eq_getElem?_getD,
    List.getElem?_set_ne h]

theorem avg_one_by_one (v : ℕ) (q : ℤ) (hq : q ≠ 0) :
    optimizeForAverageFilter [v] 1 1 1 1 q =
      (avgChannelStep q 1 1 0 0 0 0 [v]).1 := by
  unfold optimizeForAverageFilter
  rw [if_neg hq]
  have h1 : List.range 1 = [0] := by decide
  simp [h1, avgRowStep, avgPixelStep, ite_self, diffuse_zeroRows,
    ColorDelta.zero_get]

theorem paeth_one_by_one (idx : ℕ) (q : ℤ) (pal : List GoColor)
    (hpal : pal ≠ []) :
    optimizeForPaethFilter [idx] 1 1 1 q pal =
      [(paethChoosePixel q pal idx 0 ColorDelta.zero).1] := by
  unfold optimizeForPaethFilter
  rw [if_neg (by simpa using hpal)]
  have h1 : List.range 1 = [0] := by decide
  have hp : paethPredictor 0 0 0 = 0 := by decide
  simp [h1, paethRowStep, paethPixelStep, ite_self, diffuse_zeroRows, hp,
    List.getD]

/-! ## Claims -/

/-- C1: the claim states that `quantization == 0` is a byte-for-byte
no-op for both optimizers.  This is false for `optimizeForPaethFilter`:
it has no `quantization` guard, with `q = 0` the early-exit threshold
`q*q = 0` can never be exceeded by the unsigned magnitude, so the full
palette scan always runs, and on a palette containing duplicate colors
the scan commits the lowest duplicate index.  Concretely, a 1×1 buffer
holding index 1 over the palette [white, white] is rewritten to index 0. -/
theorem C1_counterexample :
    optimizeForPaethFilter [1] 1 1 1 0
      [⟨65535, 65535, 65535, 65535⟩, ⟨65535, 65535, 65535, 65535⟩] ≠ [1] := by
  decide

/-- C1 (amended): `optimizeForAverageFilter` with `quantization = 0`
returns the buffer unchanged, and `optimizeForPaethFilter` with an empty
palette returns the buffer unchanged (for every buffer, bounds, stride,
bytes-per-pixel and quantization). -/
theorem C1_amended :
    (∀ (pixels : List ℕ) (width height stride bpp : ℕ),
      optimizeForAverageFilter pixels width height stride bpp 0 = pixels) ∧
    (∀ (pixels : List ℕ) (width height stride : ℕ) (q : ℤ),
      optimizeForPaethFilter pixels width height stride q [] = pixels) := by
  constructor <;> intros <;>
    simp [optimizeForAverageFilter, optimizeForPaethFilter]

/-- C2: the claim states row 0 and column 0 are never modified.  False:
both optimizers process every pixel from `(0,0)`, substituting 0 for the
missing neighbors.  A 1×1 all-gray buffer (value 128) is changed to 130
by the average optimizer with `q = 10` — and that byte is in row 0 and
column 0. -/
theorem C2_counterexample :
    optimizeForAverageFilter [128] 1 1 1 1 10 ≠ [128] := by
  decide

/-- C2 (amended): both optimizers do process row 0 and column 0; the
missing above/left/above-left neighbors are read as 0.  On a 1×1 buffer
the result is exactly the single-pixel step with zero neighbors and zero
diffusion (shown for both optimizers), so bytes of row 0 and column 0
can be modified. -/
theorem C2_amended (v idx : ℕ) (q : ℤ) (pal : List GoColor)
    (hq : q ≠ 0) (hpal : pal ≠ []) :
    optimizeForAverageFilter [v] 1 1 1 1 q =
      (avgChannelStep q 1 1 0 0 0 0 [v]).1 ∧
    optimizeForPaethFilter [idx] 1 1 1 q pal =
      [(paethChoosePixel q pal idx 0 ColorDelta.zero).1] := by
  exact ⟨avg_one_by_one v q hq, paeth_one_by_one idx q pal hpal⟩

/-- Witness for C2 (amended) at `v = 128`, `q = 10`, a one-entry opaque
black palette and `idx = 0`. -/
theorem C2_amended_witness :
    ((10 : ℤ) ≠ 0) ∧ ([(⟨0, 0, 0, 65535⟩ : GoColor)] ≠ []) ∧
    (optimizeForAverageFilter [128] 1 1 1 1 10 =
      (avgChannelStep 10 1 1 0 0 0 0 [128]).1 ∧
    optimizeForPaethFilter [0] 1 1 1 10 [⟨0, 0, 0, 65535⟩] =
      [(paethChoosePixel 10 [⟨0, 0, 0, 65535⟩] 0 0 ColorDelta.zero).1]) :=
  ⟨by decide, by decide,
    C2_amended 128 0 10 [⟨0, 0, 0, 65535⟩] (by decide) (by decide)⟩

/-- C7: `paethPredictor(a, b, c)` computes `p = a + b - c` and returns
whichever of `a` (left), `b` (above), `c` (above-left) minimizes
`|p - candidate|`, breaking ties in the fixed order a, then b, then c —
the code's branch structure coincides with the first-minimizer
specification `paethNearestSpec`. -/
theorem C7_paethPredictor_correct (a b c : ℕ) :
    paethPredictor a b c = paethNearestSpec a b c := by
  simp only [paethPredictor, paethNearestSpec]
  split_ifs <;> omega

/-- C8: the claim expects the 3×3 all-128 buffer with `q = 10` to keep
its top row and left column at 128 and to yield pixel (1,1) = 128.
False: row 0 and column 0 are processed too (with zero-filled
neighbors), so already pixel (0,0) becomes 130. -/
theorem C8_counterexample :
    (optimizeForAverageFilter [128, 128, 128, 128, 128, 128, 128, 128, 128]
      3 3 3 1 10).getD 0 0 ≠ 128 := by
  decide

/-- C8 (amended): the actual result of the 3×3 all-128 buffer with
`quantization = 10`: pixel (0,0) quantizes against average 0 to 130,
the rest of the image follows with diffusion, and interior pixel (1,1)
becomes 125 (recorded error 3), not 128. -/
theorem C8_amended :
    optimizeForAverageFilter [128, 128, 128, 128, 128, 128, 128, 128, 128]
      3 3 3 1 10 = [130, 125, 132, 125, 125, 128, 132, 128, 128] := by
  decide

/-- C9: the claim states that `quantization < 0` either signals an
`InvalidArgument` condition or acts as the lossless passthrough.  False:
the code has no error signalling at all (the Go functions return
nothing), `optimizeForAverageFilter` only early-returns on
`quantization == 0`, so a negative step silently proceeds and modifies
the buffer: a 1×1 buffer [128] with `q = -10` is rewritten (to 120). -/
theorem C9_counterexample :
    optimizeForAverageFilter [128] 1 1 1 1 (-10) ≠ [128] := by
  decide

/-- C9 (amended): for `quantization < 0` the average optimizer silently
proceeds with the negative step: no validation exists, and on a 1×1
buffer the result is exactly the quantization step with `halfStep = q/2`
(truncated toward zero) and Go's truncated `%`. -/
theorem C9_amended (v : ℕ) (q : ℤ) (hq : q < 0) :
    optimizeForAverageFilter [v] 1 1 1 1 q =
      (avgChannelStep q 1 1 0 0 0 0 [v]).1 :=
  avg_one_by_one v q (by omega)

/-- Witness for C9 (amended) at `v = 128`, `q = -10` (the buffer becomes
[120]). -/
theorem C9_amended_witness :
    ((-10 : ℤ) < 0) ∧
    (optimizeForAverageFilter [128] 1 1 1 1 (-10) =
      (avgChannelStep (-10) 1 1 0 0 0 0 [128]).1) :=
  ⟨by decide, C9_amended 128 (-10) (by decide)⟩

/-! ## C4: the average-filter quantization formula -/

theorem emod_le_self (x q : ℤ) (hx : 0 ≤ x) (hq : 0 < q) : x % q ≤ x := by
  have h1 : x % q = x - q * (x / q) := Int.emod_def x q
  have h2 : 0 ≤ x / q := Int.ediv_nonneg hx (le_of_lt hq)
  have h3 : 0 ≤ q * (x / q) := mul_nonneg (le_of_lt hq) h2
  omega

/-- C4: the claim states the candidate equals
`average + t - (t mod q)` with `t = diffusion + here - average + q/2` for
every `q > 0`.  False for `q` beyond `int32` range: Go's
`int32(quantization / 2)` and `int32(quantization)` conversions and the
`int32` `newValue` additions silently wrap.  At `q = 2^32 - 4` with
`here = 128`, `average = 0`, `diffusion = 0`: `halfStep = 2^31 - 2`, the
`+= halfStep` add wraps to `-2147483522`, `% int32(q)` reduces mod `-4`
giving remainder `-2`, and the candidate is `-2147483520` (out of range,
so the byte would stay unchanged) — while the claimed formula gives 0
(in range, would be committed). -/
theorem C4_counterexample :
    avgCandidate 4294967292 128 0 0 = -2147483520 ∧
    avgCandidate 4294967292 128 0 0 ≠
      0 + ((0 + 128 - 0 + (4294967292 : ℤ).tdiv 2) -
        (0 + 128 - 0 + (4294967292 : ℤ).tdiv 2).tmod 4294967292) := by
  constructor <;> decide

/-- C4 (amended): for a processed channel byte — `here` and `average` in
byte range, diffusion component within `±2^25` (every delta
`colorDifference` can produce is far smaller), and `0 < q < 2^31` so the
`int32` conversions of `q` and `q/2` are exact — the candidate value
computed by `optimizeForAverageFilter` equals `average + t - (t mod q)`
with `t = diffusion + here - average + q/2` (`q/2` truncating, `mod` the
Go truncated remainder).  `avgCandidate` is exactly the `newValue` chain
of the source; `average` is the truncating mean of the byte above and
the byte to the left, and the diffusion argument is supplied by
`avgPixelStep` as a component of `diffuseColorDeltas`. -/
theorem C4_candidate_formula (q here average diffusionC : ℤ)
    (hq : 0 < q) (hq31 : q < 2 ^ 31)
    (hh : 0 ≤ here ∧ here ≤ 255) (ha : 0 ≤ average ∧ average ≤ 255)
    (hd : -2 ^ 25 ≤ diffusionC ∧ diffusionC ≤ 2 ^ 25) :
    avgCandidate q here average diffusionC =
      average + ((diffusionC + here - average + q.tdiv 2) -
        (diffusionC + here - average + q.tdiv 2).tmod q) := by
  have hdiv : q.tdiv 2 = q / 2 := Int.tdiv_eq_ediv (by omega) (by omega)
  simp only [avgCandidate]
  rw [hdiv]
  rw [wrap32_small q (by omega) (by omega)]
  rw [wrap32_small (q / 2) (by omega) (by omega)]
  rw [wrap32_small (diffusionC + here - average) (by omega) (by omega)]
  rw [wrap32_small (diffusionC + here - average + q / 2) (by omega) (by omega)]
  rcases le_or_lt 0 (diffusionC + here - average + q / 2) with ht | ht
  · rw [Int.tmod_eq_emod ht (le_of_lt hq)]
    have hm1 : 0 ≤ (diffusionC + here - average + q / 2) % q :=
      Int.emod_nonneg _ (by omega)
    have hm2 : (diffusionC + here - average + q / 2) % q < q :=
      Int.emod_lt_of_pos _ hq
    simp only [wrap32]
    omega
  · have hneg : (diffusionC + here - average + q / 2).tmod q =
        -((-(diffusionC + here - average + q / 2)).tmod q) := by
      rw [Int.tmod_def, Int.tmod_def, Int.neg_tdiv]
      ring
    rw [hneg, Int.tmod_eq_emod (by omega) (le_of_lt hq)]
    have hm1 : 0 ≤ (-(diffusionC + here - average + q / 2)) % q :=
      Int.emod_nonneg _ (by omega)
    have hm2 : (-(diffusionC + here - average + q / 2)) % q < q :=
      Int.emod_lt_of_pos _ hq
    have hm3 : (-(diffusionC + here - average + q / 2)) % q ≤
        -(diffusionC + here - average + q / 2) :=
      emod_le_self _ q (by omega) hq
    simp only [wrap32]
    omega

/-- Witness for C4 (amended) at `q = 10`, `here = 128`, `average = 0`,
`diffusion = 0` (the candidate is 130). -/
theorem C4_candidate_formula_witness :
    ((0 : ℤ) < 10) ∧ ((10 : ℤ) < 2 ^ 31) ∧
    avgCandidate 10 128 0 0 =
      0 + ((0 + 128 - 0 + (10 : ℤ).tdiv 2) -
        (0 + 128 - 0 + (10 : ℤ).tdiv 2).tmod 10) :=
  ⟨by decide, by decide,
    C4_candidate_formula 10 128 0 0 (by decide) (by decide) (by decide)
      (by decide) (by decide)⟩

/-! ## C3: the Paeth optimizer's diffusion kernel -/

theorem deltaBounded_cell {B : ℤ} {e : List ColorDelta} (h : deltaBounded B e)
    (hB : 0 ≤ B) (j i : ℕ) :
    -B ≤ (e.getD j ColorDelta.zero).get i ∧
      (e.getD j ColorDelta.zero).get i ≤ B := by
  have hd : e.getD j ColorDelta.zero ∈ e ∨
      e.getD j ColorDelta.zero = ColorDelta.zero := by
    rw [List.getD_eq_getElem?_getD]
    cases hx : e[j]? with
    | none => right; rfl
    | some v => left; simpa using List.getElem?_mem hx
  rcases hd with hd | hd
  · obtain ⟨h0, h1, h2, h3⟩ := h _ hd
    have h0' := abs_le.mp h0
    have h1' := abs_le.mp h1
    have h2' := abs_le.mp h2
    have h3' := abs_le.mp h3
    rcases i with _ | _ | _ | i <;>
      simp only [ColorDelta.get] <;> constructor <;> omega
  · rw [hd, ColorDelta.zero_get]
    constructor <;> omega

theorem chain_sum (v1 v2 v3 v4 v5 v6 v7 v8 v9 v10 : ℤ)
    (h1 : -2 ^ 25 ≤ v1 ∧ v1 ≤ 2 ^ 25) (h2 : -2 ^ 25 ≤ v2 ∧ v2 ≤ 2 ^ 25)
    (h3 : -2 ^ 25 ≤ v3 ∧ v3 ≤ 2 ^ 25) (h4 : -2 ^ 25 ≤ v4 ∧ v4 ≤ 2 ^ 25)
    (h5 : -2 ^ 25 ≤ v5 ∧ v5 ≤ 2 ^ 25) (h6 : -2 ^ 25 ≤ v6 ∧ v6 ≤ 2 ^ 25)
    (h7 : -2 ^ 25 ≤ v7 ∧ v7 ≤ 2 ^ 25) (h8 : -2 ^ 25 ≤ v8 ∧ v8 ≤ 2 ^ 25)
    (h9 : -2 ^ 25 ≤ v9 ∧ v9 ≤ 2 ^ 25) (h10 : -2 ^ 25 ≤ v10 ∧ v10 ≤ 2 ^ 25) :
    wrap32 (wrap32 (wrap32 (wrap32 (wrap32 (wrap32 (wrap32 (wrap32 (wrap32
        (wrap32 (0 + wrap32 (2 * v1)) + wrap32 (3 * v2)) + wrap32 (2 * v3)) +
        wrap32 (2 * v4)) + wrap32 (4 * v5)) + wrap32 (5 * v6)) +
        wrap32 (4 * v7)) + wrap32 (2 * v8)) + wrap32 (3 * v9)) +
        wrap32 (5 * v10)) =
      2 * v1 + 3 * v2 + 2 * v3 + 2 * v4 + 4 * v5 + 5 * v6 + 4 * v7 +
        2 * v8 + 3 * v9 + 5 * v10 := by
  simp only [wrap32]
  omega

theorem round_small (s : ℤ) (hlo : -2 ^ 30 ≤ s) (hhi : s ≤ 2 ^ 30) :
    wrap32 (if s < 0 then s - 16 else s + 16) =
      if s < 0 then s - 16 else s + 16 := by
  split_ifs <;> exact wrap32_small _ (by omega) (by omega)

theorem diffuseComponent_plain (e2 e1 e0 : List ColorDelta) (x i : ℕ)
    (hb2 : deltaBounded (2 ^ 25) e2) (hb1 : deltaBounded (2 ^ 25) e1)
    (hb0 : deltaBounded (2 ^ 25) e0) :
    diffuseComponent e2 e1 e0 x i =
      (if 2 * (e2.getD (x - 1) ColorDelta.zero).get i +
            3 * (e2.getD x ColorDelta.zero).get i +
            2 * (e2.getD (x + 1) ColorDelta.zero).get i +
            2 * (e1.getD (x - 2) ColorDelta.zero).get i +
            4 * (e1.getD (x - 1) ColorDelta.zero).get i +
            5 * (e1.getD x ColorDelta.zero).get i +
            4 * (e1.getD (x + 1) ColorDelta.zero).get i +
            2 * (e1.getD (x + 2) ColorDelta.zero).get i +
            3 * (e0.getD (x - 2) ColorDelta.zero).get i +
            5 * (e0.getD (x - 1) ColorDelta.zero).get i < 0 then
          2 * (e2.getD (x - 1) ColorDelta.zero).get i +
            3 * (e2.getD x ColorDelta.zero).get i +
            2 * (e2.getD (x + 1) ColorDelta.zero).get i +
            2 * (e1.getD (x - 2) ColorDelta.zero).get i +
            4 * (e1.getD (x - 1) ColorDelta.zero).get i +
            5 * (e1.getD x ColorDelta.zero).get i +
            4 * (e1.getD (x + 1) ColorDelta.zero).get i +
            2 * (e1.getD (x + 2) ColorDelta.zero).get i +
            3 * (e0.getD (x - 2) ColorDelta.zero).get i +
            5 * (e0.getD (x - 1) ColorDelta.zero).get i - 16
        else
          2 * (e2.getD (x - 1) ColorDelta.zero).get i +
            3 * (e2.getD x ColorDelta.zero).get i +
            2 * (e2.getD (x + 1) ColorDelta.zero).get i +
            2 * (e1.getD (x - 2) ColorDelta.zero).get i +
            4 * (e1.getD (x - 1) ColorDelta.zero).get i +
            5 * (e1.getD x ColorDelta.zero).get i +
            4 * (e1.getD (x + 1) ColorDelta.zero).get i +
            2 * (e1.getD (x + 2) ColorDelta.zero).get i +
            3 * (e0.getD (x - 2) ColorDelta.zero).get i +
            5 * (e0.getD (x - 1) ColorDelta.zero).get i + 16).tdiv 32 := by
  have c1 := deltaBounded_cell hb2 (by norm_num) (x - 1) i
  have c2 := deltaBounded_cell hb2 (by norm_num) x i
  have c3 := deltaBounded_cell hb2 (by norm_num) (x + 1) i
  have c4 := deltaBounded_cell hb1 (by norm_num) (x - 2) i
  have c5 := deltaBounded_cell hb1 (by norm_num) (x - 1) i
  have c6 := deltaBounded_cell hb1 (by norm_num) x i
  have c7 := deltaBounded_cell hb1 (by norm_num) (x + 1) i
  have c8 := deltaBounded_cell hb1 (by norm_num) (x + 2) i
  have c9 := deltaBounded_cell hb0 (by norm_num) (x - 2) i
  have c10 := deltaBounded_cell hb0 (by norm_num) (x - 1) i
  simp only [diffuseComponent]
  rw [chain_sum _ _ _ _ _ _ _ _ _ _ c1 c2 c3 c4 c5 c6 c7 c8 c9 c10]
  rw [round_small _ (by omega) (by omega)]

/-- C3: the claim states the Paeth optimizer folds in a diffusion value
computed by a 4-tap kernel with weights 7/1/5/3 over the left,
above-left, above and above-right stored deltas, rounded
half-away-from-zero and divided by 16.  False: `optimizeForPaethFilter`
calls the same 10-tap `diffuseColorDeltas` (weights summing to 32) as
the average optimizer.  At the concrete window state reached in row 0 of
a width-2 image after pixel (0,0) stored the delta (16,0,0,0) — rows 2
and 1 all-zero, row 0 holding (16,0,0,0) at the slot of column 0 — the
code's diffusion at the next pixel is 3 while the claimed 4-tap kernel
yields 7. -/
theorem C3_counterexample :
    diffuseColorDeltas (zeroRow 2) (zeroRow 2)
        [ColorDelta.zero, ColorDelta.zero, ⟨16, 0, 0, 0⟩,
          ColorDelta.zero, ColorDelta.zero, ColorDelta.zero] 3 ≠
      fourTapDiffusionSpec (zeroRow 2)
        [ColorDelta.zero, ColorDelta.zero, ⟨16, 0, 0, 0⟩,
          ColorDelta.zero, ColorDelta.zero, ColorDelta.zero] 3 := by
  decide

/-- C3 (amended): the diffusion value folded into each Paeth (and
average) pixel decision is the 10-tap kernel of `diffuseColorDeltas` —
weights 2/3/2 over `colorError[2]` at columns x-1, x, x+1, weights
2/4/5/4/2 over `colorError[1]` at columns x-2 … x+2, and weights 3/5
over `colorError[0]` at columns x-2, x-1 — rounded half-away-from-zero
and divided by 32, provided the stored deltas are small enough
(components within ±2^25) that no `int32` wrap occurs. -/
theorem C3_amended (e2 e1 e0 : List ColorDelta) (x : ℕ)
    (hb2 : deltaBounded (2 ^ 25) e2) (hb1 : deltaBounded (2 ^ 25) e1)
    (hb0 : deltaBounded (2 ^ 25) e0) :
    diffuseColorDeltas e2 e1 e0 x = tenTapDiffusionSpec e2 e1 e0 x := by
  simp only [diffuseColorDeltas, tenTapDiffusionSpec, ColorDelta.mk.injEq]
  refine ⟨?_, ?_, ?_, ?_⟩ <;>
    exact diffuseComponent_plain e2 e1 e0 x _ hb2 hb1 hb0

/-- Witness for C3 (amended) at the concrete window state used for the
counterexample. -/
theorem C3_amended_witness :
    deltaBounded (2 ^ 25) (zeroRow 2) ∧
    deltaBounded (2 ^ 25)
      [ColorDelta.zero, ColorDelta.zero, ⟨16, 0, 0, 0⟩,
        ColorDelta.zero, ColorDelta.zero, ColorDelta.zero] ∧
    diffuseColorDeltas (zeroRow 2) (zeroRow 2)
        [ColorDelta.zero, ColorDelta.zero, ⟨16, 0, 0, 0⟩,
          ColorDelta.zero, ColorDelta.zero, ColorDelta.zero] 3 =
      tenTapDiffusionSpec (zeroRow 2) (zeroRow 2)
        [ColorDelta.zero, ColorDelta.zero, ⟨16, 0, 0, 0⟩,
          ColorDelta.zero, ColorDelta.zero, ColorDelta.zero] 3 :=
  ⟨by decide, by decide,
    C3_amended _ _ _ 3 (by decide) (by decide) (by decide)⟩

/-! ## C10: bytes at 0 and 255 are frozen -/

theorem avgChannelStep_frozen (q : ℤ) (stride bpp y x c : ℕ) (dC : ℤ)
    (l : List ℕ) (off : ℕ) (hv : l.getD off 0 = 0 ∨ l.getD off 0 = 255) :
    (avgChannelStep q stride bpp y x c dC l).1.getD off 0 = l.getD off 0 := by
  simp only [avgChannelStep]
  split_ifs with h1 <;> try rfl
  all_goals
    by_cases heq : y * stride + x * bpp + c = off
  all_goals try exact getD_set_ne _ _ _ _ _ heq
  all_goals rw [heq] at h1; omega

/-- C10: a channel byte whose value is exactly 0 or exactly 255 is never
modified by `optimizeForAverageFilter` (its guard `here > 0 && here <
255` fails), and its recorded error is 0.  Stated (i) per channel step
and (ii) for a whole optimizer run: the byte at any offset holding 0 or
255 is unchanged at the end. -/
theorem C10_extremes_frozen :
    (∀ (q : ℤ) (stride bpp y x c : ℕ) (dC : ℤ) (pixels : List ℕ),
      (pixels.getD (y * stride + x * bpp + c) 0 = 0 ∨
        pixels.getD (y * stride + x * bpp + c) 0 = 255) →
      avgChannelStep q stride bpp y x c dC pixels = (pixels, 0)) ∧
    (∀ (pixels : List ℕ) (width height stride bpp : ℕ) (q : ℤ) (off : ℕ),
      (pixels.getD off 0 = 0 ∨ pixels.getD off 0 = 255) →
      (optimizeForAverageFilter pixels width height stride bpp q).getD off 0 =
        pixels.getD off 0) := by
  constructor
  · intro q stride bpp y x c dC pixels hv
    simp only [avgChannelStep]
    rw [if_neg (by omega)]
  · intro pixels width height stride bpp q off hv
    unfold optimizeForAverageFilter
    split_ifs with hq
    · rfl
    · refine foldl_preserve
        (fun s : List ℕ × List ColorDelta =>
          s.1.getD off 0 = pixels.getD off 0) _ _ _ ?_ rfl
      intro t y _ ht
      simp only [avgRowStep]
      refine foldl_preserve
        (fun s : List ℕ × List ColorDelta =>
          s.1.getD off 0 = pixels.getD off 0) _ _ _ ?_ ht
      intro t2 x _ ht2
      simp only [avgPixelStep]
      refine foldl_preserve
        (fun s : List ℕ × List ColorDelta =>
          s.1.getD off 0 = pixels.getD off 0) _ _ _ ?_ ht2
      intro t3 c _ ht3
      simp only
      rw [avgChannelStep_frozen q stride bpp y x c _ t3.1 off
        (by rw [ht3]; exact hv), ht3]

/-- Witness for C10: a 1×1 buffer holding 255 with `q = 10` is unchanged
(both at the channel-step level and for the whole run). -/
theorem C10_extremes_frozen_witness :
    ([(255 : ℕ)].getD 0 0 = 0 ∨ [(255 : ℕ)].getD 0 0 = 255) ∧
    avgChannelStep 10 1 1 0 0 0 0 [255] = ([255], 0) ∧
    (optimizeForAverageFilter [255] 1 1 1 1 10).getD 0 0 =
      [(255 : ℕ)].getD 0 0 :=
  ⟨by decide, C10_extremes_frozen.1 10 1 1 0 0 0 0 [255] (by decide),
    C10_extremes_frozen.2 [255] 1 1 1 1 10 0 (by decide)⟩

/-! ## C6: edge policy and range safety -/

theorem getD_mem_or_default {α : Type} (l : List α) (n : ℕ) (d : α) :
    l.getD n d ∈ l ∨ l.getD n d = d := by
  rw [List.getD_eq_getElem?_getD]
  cases hx : l[n]? with
  | none => right; rfl
  | some v => left; simpa using List.getElem?_mem hx

theorem avgChannelStep_eq (q : ℤ) (stride bpp y x c : ℕ) (dC : ℤ)
    (pixels : List ℕ) :
    avgChannelStep q stride bpp y x c dC pixels =
      if 0 < ((pixels.getD (y * stride + x * bpp + c) 0 : ℕ) : ℤ) ∧
          ((pixels.getD (y * stride + x * bpp + c) 0 : ℕ) : ℤ) < 255 then
        if 0 ≤ avgStepCandidate q stride bpp y x c dC pixels ∧
            avgStepCandidate q stride bpp y x c dC pixels ≤ 255 then
          (pixels.set (y * stride + x * bpp + c)
            (avgStepCandidate q stride bpp y x c dC pixels).toNat,
           ((pixels.getD (y * stride + x * bpp + c) 0 : ℕ) : ℤ) -
             avgStepCandidate q stride bpp y x c dC pixels)
        else (pixels, 0)
      else (pixels, 0) := rfl

theorem paethPredictor_cases (a b c : ℕ) :
    paethPredictor a b c = a ∨ paethPredictor a b c = b ∨
      paethPredictor a b c = c := by
  simp only [paethPredictor]
  split_ifs <;> simp

theorem paethChoosePixel_lt (q : ℤ) (pal : List GoColor)
    (here paeth : ℕ) (diffusion : ColorDelta)
    (h0 : 0 < pal.length) (hpaeth : paeth < pal.length) :
    (paethChoosePixel q pal here paeth diffusion).1 < pal.length := by
  simp only [paethChoosePixel]
  split_ifs with h
  · exact hpaeth
  · exact foldl_preserve
      (fun acc : ℕ × ColorDelta × ℕ => acc.1 < pal.length) _ _ _
      (fun t i hi ht => by
        simp only [paethScanStep]
        split_ifs
        · exact lt_of_le_of_lt (Nat.mod_le i 256) (List.mem_range.mp hi)
        · exact ht)
      h0

theorem avgChannelStep_bytes (q : ℤ) (stride bpp y x c : ℕ) (dC : ℤ)
    (l : List ℕ) (h : ∀ v ∈ l, v < 256) :
    ∀ v ∈ (avgChannelStep q stride bpp y x c dC l).1, v < 256 := by
  intro v hv
  rw [avgChannelStep_eq] at hv
  split_ifs at hv with h1 h2
  · rcases List.mem_or_eq_of_mem_set hv with hm | rfl
    · exact h v hm
    · have := h2.2
      omega
  · exact h v hv
  · exact h v hv

theorem paethPixelStep_bytes (q : ℤ) (stride width : ℕ)
    (pal : List GoColor) (y x : ℕ) (st : List ℕ × List ColorDelta)
    (h0 : 0 < pal.length) (h : ∀ v ∈ st.1, v < pal.length) :
    ∀ v ∈ (paethPixelStep q stride width pal y x st).1, v < pal.length := by
  have hget : ∀ n, st.1.getD n 0 < pal.length := fun n => by
    rcases getD_mem_or_default st.1 n 0 with hm | he
    · exact h _ hm
    · rw [he]; exact h0
  have harg : ∀ (b : Prop) (hb : Decidable b) (n : ℕ),
      (if b then st.1.getD n 0 else 0) < pal.length := fun b hb n => by
    split_ifs
    · exact hget n
    · exact h0
  simp only [paethPixelStep]
  intro v hv
  rcases List.mem_or_eq_of_mem_set hv with hm | rfl
  · exact h v hm
  · apply paethChoosePixel_lt _ _ _ _ _ h0
    rcases paethPredictor_cases
        (if 0 < x then st.1.getD (y * stride + x - 1) 0 else 0)
        (if 0 < y then st.1.getD (y * stride + x - stride) 0 else 0)
        (if 0 < y ∧ 0 < x then st.1.getD (y * stride + x - stride - 1) 0
          else 0) with hp | hp | hp <;> rw [hp] <;> exact harg _ _ _

/-- C6: (i) the average optimizer commits a quantized candidate only when
it lies in [0, 255]: when the candidate is out of range the channel step
leaves the buffer unchanged and records error 0; (ii) consequently every
channel byte after `optimizeForAverageFilter` remains < 256; and (iii)
under the precondition that every input byte is a valid palette index,
every index byte after `optimizeForPaethFilter` remains less than the
palette length. -/
theorem C6_range_safety :
    (∀ (q : ℤ) (stride bpp y x c : ℕ) (dC : ℤ) (pixels : List ℕ),
      ¬(0 ≤ avgStepCandidate q stride bpp y x c dC pixels ∧
          avgStepCandidate q stride bpp y x c dC pixels ≤ 255) →
      avgChannelStep q stride bpp y x c dC pixels = (pixels, 0)) ∧
    (∀ (pixels : List ℕ) (width height stride bpp : ℕ) (q : ℤ),
      (∀ v ∈ pixels, v < 256) →
      ∀ v ∈ optimizeForAverageFilter pixels width height stride bpp q,
        v < 256) ∧
    (∀ (pixels : List ℕ) (width height stride : ℕ) (q : ℤ)
        (palette : List GoColor),
      (∀ v ∈ pixels, v < palette.length) →
      ∀ v ∈ optimizeForPaethFilter pixels width height stride q palette,
        v < palette.length) := by
  refine ⟨?_, ?_, ?_⟩
  · intro q stride bpp y x c dC pixels hcand
    rw [avgChannelStep_eq]
    split_ifs with h1 <;> rfl
  · intro pixels width height stride bpp q hinv
    unfold optimizeForAverageFilter
    split_ifs with hq
    · exact hinv
    · refine foldl_preserve
        (fun st : List ℕ × List ColorDelta => ∀ v ∈ st.1, v < 256)
        _ _ _ ?_ hinv
      intro t y _ ht
      simp only [avgRowStep]
      refine foldl_preserve
        (fun st : List ℕ × List ColorDelta => ∀ v ∈ st.1, v < 256)
        _ _ _ ?_ ht
      intro t2 x _ ht2
      simp only [avgPixelStep]
      refine foldl_preserve
        (fun st : List ℕ × List ColorDelta => ∀ v ∈ st.1, v < 256)
        _ _ _ ?_ ht2
      intro t3 c _ ht3
      exact avgChannelStep_bytes q stride bpp y x c _ t3.1 ht3
  · intro pixels width height stride q palette hinv
    unfold optimizeForPaethFilter
    split_ifs with hq
    · exact hinv
    · have h0 : 0 < palette.length := Nat.pos_of_ne_zero hq
      refine foldl_preserve
        (fun st : List ℕ × List ColorDelta => ∀ v ∈ st.1, v < palette.length)
        _ _ _ ?_ hinv
      intro t y _ ht
      simp only [paethRowStep]
      refine foldl_preserve
        (fun st : List ℕ × List ColorDelta => ∀ v ∈ st.1, v < palette.length)
        _ _ _ ?_ ht
      intro t2 x _ ht2
      exact paethPixelStep_bytes q stride width palette y x t2 h0 ht2

/-- Witness for C6: the candidate 301 (from byte 254 with `q = 301`) is
rejected leaving the buffer unchanged with zero error; a 1×1 run keeps
bytes < 256; a 1×1 paletted run keeps indices < 2. -/
theorem C6_range_safety_witness :
    (¬(0 ≤ avgStepCandidate 301 1 1 0 0 0 0 [254] ∧
        avgStepCandidate 301 1 1 0 0 0 0 [254] ≤ 255)) ∧
    avgChannelStep 301 1 1 0 0 0 0 [254] = ([254], 0) ∧
    (∀ v ∈ optimizeForAverageFilter [128] 1 1 1 1 10, v < 256) ∧
    (∀ v ∈ optimizeForPaethFilter [1] 1 1 1 0
        [⟨65535, 65535, 65535, 65535⟩, ⟨65535, 65535, 65535, 65535⟩],
      v < ([(⟨65535, 65535, 65535, 65535⟩ : GoColor),
            ⟨65535, 65535, 65535, 65535⟩] : List GoColor).length) :=
  ⟨by decide, C6_range_safety.1 301 1 1 0 0 0 0 [254] (by decide),
    C6_range_safety.2.1 [128] 1 1 1 1 10 (by decide),
    C6_range_safety.2.2 [1] 1 1 1 0
      [⟨65535, 65535, 65535, 65535⟩, ⟨65535, 65535, 65535, 65535⟩]
      (by decide)⟩

/-! ## C5: early exit and exhaustive scan -/

theorem paethScan_aux (hereC : GoColor) (diffusion : ColorDelta)
    (palette : List GoColor) (n : ℕ) (h256 : palette.length ≤ 256)
    (hn : n ≤ palette.length) :
    ∀ r, r = (List.range n).foldl (paethScanStep hereC diffusion palette)
        (0, colorDifference hereC (palette.getD 0 ⟨0, 0, 0, 0⟩),
          ((colorDifference hereC (palette.getD 0 ⟨0, 0, 0, 0⟩)).add
            diffusion).magnitude) →
      r.2.1 = paethScanDelta hereC diffusion palette r.1 ∧
      r.2.2 = paethScanMag hereC diffusion palette r.1 ∧
      (∀ j < n, paethScanMag hereC diffusion palette r.1 ≤
        paethScanMag hereC diffusion palette j) ∧
      paethScanMag hereC diffusion palette r.1 ≤
        paethScanMag hereC diffusion palette 0 ∧
      (∀ j < r.1, paethScanMag hereC diffusion palette r.1 <
        paethScanMag hereC diffusion palette j) ∧
      (r.1 < n ∨ r.1 = 0) := by
  induction n with
  | zero =>
    intro r hr
    simp only [List.range_zero, List.foldl_nil] at hr
    subst hr
    exact ⟨rfl, rfl, fun j hj => absurd hj (Nat.not_lt_zero j), le_refl _,
      fun j hj => absurd hj (Nat.not_lt_zero j), Or.inr rfl⟩
  | succ n ih =>
    intro r hr
    have hn' : n ≤ palette.length := Nat.le_of_succ_le hn
    obtain ⟨ih1, ih2, ih3, ih4, ih5, ih6⟩ := ih hn' _ rfl
    rw [List.range_succ, List.foldl_append, List.foldl_cons,
      List.foldl_nil] at hr
    simp only [paethScanStep] at hr
    set rn := (List.range n).foldl (paethScanStep hereC diffusion palette)
      (0, colorDifference hereC (palette.getD 0 ⟨0, 0, 0, 0⟩),
        ((colorDifference hereC (palette.getD 0 ⟨0, 0, 0, 0⟩)).add
          diffusion).magnitude) with hrn
    by_cases hc : rn.2.2 >
        ((colorDifference hereC (palette.getD n ⟨0, 0, 0, 0⟩)).add
          diffusion).magnitude
    · rw [if_pos hc] at hr
      subst hr
      have hn256 : n % 256 = n := Nat.mod_eq_of_lt (by omega)
      rw [ih2] at hc
      have hc' : paethScanMag hereC diffusion palette n <
          paethScanMag hereC diffusion palette rn.1 := hc
      simp only [hn256]
      refine ⟨rfl, rfl, ?_, ?_, ?_, Or.inl (Nat.lt_succ_self n)⟩
      · intro j hj
        rcases Nat.lt_succ_iff_lt_or_eq.mp hj with hj | hj
        · exact le_of_lt (lt_of_lt_of_le hc' (ih3 j hj))
        · subst hj
          exact le_refl _
      · exact le_of_lt (lt_of_lt_of_le hc' ih4)
      · intro j hj
        exact lt_of_lt_of_le hc' (ih3 j hj)
    · rw [if_neg hc] at hr
      subst hr
      have hle : rn.2.2 ≤
          ((colorDifference hereC (palette.getD n ⟨0, 0, 0, 0⟩)).add
            diffusion).magnitude := Nat.le_of_not_lt hc
      have hle' : paethScanMag hereC diffusion palette rn.1 ≤
          paethScanMag hereC diffusion palette n := by
        rw [← ih2]
        exact hle
      refine ⟨ih1, ih2, ?_, ih4, ih5, ?_⟩
      · intro j hj
        rcases Nat.lt_succ_iff_lt_or_eq.mp hj with hj | hj
        · exact ih3 j hj
        · subst hj
          exact hle'
      · rcases ih6 with h | h
        · exact Or.inl (Nat.lt_succ_of_lt h)
        · exact Or.inr h

/-- C5: the claim compares the scaled magnitude against the threshold
`q*q` with no bound on `q`.  False at `q = 2^32` (a legal Go `int`):
the code's threshold `uint64(quantization*quantization)` wraps
`2^64` to 0, so the early exit never fires and the scan always runs —
here, over the palette [black, white] with the pixel holding index 1 and
Paeth prediction 0, the code commits the scan winner 1 — while the
claim's threshold `q*q = 2^64` exceeds any scaled magnitude, so the
claim demands the Paeth prediction 0. -/
theorem C5_counterexample :
    (paethScanMag
        (([(⟨0, 0, 0, 65535⟩ : GoColor), ⟨65535, 65535, 65535, 65535⟩] :
          List GoColor).getD 1 ⟨0, 0, 0, 0⟩) ColorDelta.zero
        [⟨0, 0, 0, 65535⟩, ⟨65535, 65535, 65535, 65535⟩] 0 / 2 ^ 16 <
      ((4294967296 : ℤ) * 4294967296).toNat) ∧
    (paethChoosePixel 4294967296
        [⟨0, 0, 0, 65535⟩, ⟨65535, 65535, 65535, 65535⟩] 1 0
        ColorDelta.zero).1 ≠ 0 := by
  constructor <;> decide

/-- C5 (amended): per-pixel decision of `optimizeForPaethFilter`, for
`0 ≤ q < 2^32` so that the code's `uint64(q*q)` threshold is exactly
`q*q` (beyond that the conversion wraps — see the counterexample).  If
the scaled squared magnitude of the delta between the current color and
the Paeth-predicted color plus diffusion (`total.magnitude() >> 16`) is
below the threshold `q*q`, the committed index is the Paeth prediction;
otherwise it is the palette index whose delta-plus-diffusion magnitude
is smallest, ties broken by the lowest index (the scan's strict
improvement keeps the first minimizer).  The palette is nonempty with at
most 256 entries (palette indices are bytes). -/
theorem C5_choose_pixel (q : ℤ) (palette : List GoColor)
    (here paeth : ℕ) (diffusion : ColorDelta)
    (h0 : 0 < palette.length) (h256 : palette.length ≤ 256)
    (hq : 0 ≤ q) (hq32 : q < 2 ^ 32) :
    (paethScanMag (palette.getD here ⟨0, 0, 0, 0⟩) diffusion palette paeth
        / 2 ^ 16 < (q * q).toNat →
      (paethChoosePixel q palette here paeth diffusion).1 = paeth) ∧
    (¬(paethScanMag (palette.getD here ⟨0, 0, 0, 0⟩) diffusion palette paeth
        / 2 ^ 16 < (q * q).toNat) →
      (paethChoosePixel q palette here paeth diffusion).1 < palette.length ∧
      (∀ j < palette.length,
        paethScanMag (palette.getD here ⟨0, 0, 0, 0⟩) diffusion palette
            (paethChoosePixel q palette here paeth diffusion).1 ≤
          paethScanMag (palette.getD here ⟨0, 0, 0, 0⟩) diffusion palette j) ∧
      (∀ j < (paethChoosePixel q palette here paeth diffusion).1,
        paethScanMag (palette.getD here ⟨0, 0, 0, 0⟩) diffusion palette
            (paethChoosePixel q palette here paeth diffusion).1 <
          paethScanMag (palette.getD here ⟨0, 0, 0, 0⟩) diffusion palette j)) := by
  have hqq : ((q * q) % 2 ^ 64).toNat = (q * q).toNat := by
    have h1 : q * q < 2 ^ 64 := by nlinarith
    rw [Int.emod_eq_of_lt (mul_self_nonneg q) h1]
  constructor
  · intro hcond
    simp only [paethScanMag] at hcond
    simp only [paethChoosePixel, hqq]
    rw [if_pos hcond]
  · intro hcond
    simp only [paethScanMag] at hcond
    simp only [paethChoosePixel, hqq]
    rw [if_neg hcond]
    obtain ⟨a1, a2, a3, a4, a5, a6⟩ :=
      paethScan_aux (palette.getD here ⟨0, 0, 0, 0⟩) diffusion palette
        palette.length h256 (le_refl _) _ rfl
    exact ⟨a6.elim (fun h => h) (fun h => h.symm ▸ h0), a3, a5⟩

/-- Witness for C5: a two-color palette (opaque black and white),
`here = paeth = 0`, zero diffusion, `q = 1000`: the zero delta passes the
early-exit test and the committed index is the Paeth prediction 0. -/
theorem C5_choose_pixel_witness :
    (0 < ([(⟨0, 0, 0, 65535⟩ : GoColor), ⟨65535, 65535, 65535, 65535⟩] :
      List GoColor).length) ∧
    ((1000 : ℤ) ≥ 0 ∧ (1000 : ℤ) < 2 ^ 32) ∧
    (paethScanMag
        (([(⟨0, 0, 0, 65535⟩ : GoColor),
          ⟨65535, 65535, 65535, 65535⟩] : List GoColor).getD 0 ⟨0, 0, 0, 0⟩)
        ColorDelta.zero
        [⟨0, 0, 0, 65535⟩, ⟨65535, 65535, 65535, 65535⟩] 0 / 2 ^ 16 <
        ((1000 : ℤ) * 1000).toNat →
      (paethChoosePixel 1000
        [⟨0, 0, 0, 65535⟩, ⟨65535, 65535, 65535, 65535⟩] 0 0
        ColorDelta.zero).1 = 0) :=
  ⟨by decide, ⟨by decide, by decide⟩,
    (C5_choose_pixel 1000
      [⟨0, 0, 0, 65535⟩, ⟨65535, 65535, 65535, 65535⟩] 0 0
      ColorDelta.zero (by decide) (by decide) (by decide) (by decide)).1⟩
